import Mathlib

/-!
Verification of the risk-classification and allow-list core of the
ClaudeApprover PreToolUse hook (src/hook/menubar-approval.py).

The Python source is shallowly embedded: the `re` patterns of the three
risk tables become terms of a small regular-expression AST `RE` with an
executable search function `reSearch` that mirrors Python `re.search`
semantics (existence of a match at some start position, with word
boundaries, character classes, anchors and negative lookaround); the
pure functions `classify_risk`, `_has_compound_operators`,
`_match_allow_pattern`, `is_allowed_by_settings`, `summarize_fallback`
and the decision flow of `main` become Lean functions.  Filesystem and
network state (settings.json files, the Ollama response) are passed as
explicit arguments.  All characters relevant to the verified inputs are
ASCII; the embedding of the character classes restricts the Unicode
classes of Python `re` to their ASCII subsets.
-/

/-- Character classes appearing in the source regexes.  `spc` is Python
regex whitespace restricted to ASCII, `nspc` its complement, `dot` is
regex dot without DOTALL (any char except newline), `oneOf`/`noneOf` are
bracket expressions. -/
inductive CC where
  | spc
  | nspc
  | dot
  | oneOf (cs : List Char)
  | noneOf (cs : List Char)

/-- Whitespace per the regex class backslash-s, ASCII subset. -/
def isPySpace (c : Char) : Bool :=
  c = ' ' || c = '\t' || c = '\n' || c = '\x0d' || c = Char.ofNat 11 || c = Char.ofNat 12

/-- Word characters per the regex class backslash-w, ASCII subset. -/
def pyWord (c : Char) : Bool :=
  c.isAlphanum || c = '_'

def ccMatch : CC → Char → Bool
  | CC.spc, c => isPySpace c
  | CC.nspc, c => !isPySpace c
  | CC.dot, c => c ≠ '\n'
  | CC.oneOf cs, c => cs.contains c
  | CC.noneOf cs, c => !cs.contains c

/-- Regular-expression AST covering exactly the constructs used by the
patterns in menubar-approval.py: literals, the classes of `CC`, star over
a class (every star in the source is over a single-character class),
concatenation, alternation, option, the anchors `^` and `$`, the word
boundary, negative lookahead and single-character negative lookbehind. -/
inductive RE where
  | eps
  | lit (c : Char)
  | cc (k : CC)
  | starC (k : CC)
  | seq (a b : RE)
  | alt (a b : RE)
  | opt (a : RE)
  | bos
  | eos
  | wb
  | nla (a : RE)
  | nlb (cs : List Char)

/-- All ways of consuming an initial (possibly empty) run of characters
of class `k`: returns the list of (reversed-prefix, rest) states. -/
def starRuns (k : CC) : List Char → List Char → List (List Char × List Char)
  | pre, [] => [(pre, [])]
  | pre, c :: rest =>
    (pre, c :: rest) :: (if ccMatch k c then starRuns k (c :: pre) rest else [])

/-- Nondeterministic matcher: all states (reversed prefix of consumed
input, remaining input) reachable by matching `r` at the current
position.  `pre` is the reversed already-consumed input, used by the
anchors, the word boundary and the lookbehind.  Python re search
succeeds iff some backtracking path succeeds, which coincides with this
all-paths semantics. -/
def reRun : RE → List Char → List Char → List (List Char × List Char)
  | RE.eps, pre, s => [(pre, s)]
  | RE.lit c, pre, s =>
    match s with
    | [] => []
    | c' :: rest => if c' = c then [(c' :: pre, rest)] else []
  | RE.cc k, pre, s =>
    match s with
    | [] => []
    | c :: rest => if ccMatch k c then [(c :: pre, rest)] else []
  | RE.starC k, pre, s => starRuns k pre s
  | RE.seq a b, pre, s => (reRun a pre s).flatMap (fun st => reRun b st.1 st.2)
  | RE.alt a b, pre, s => reRun a pre s ++ reRun b pre s
  | RE.opt a, pre, s => (pre, s) :: reRun a pre s
  | RE.bos, pre, s => if pre.isEmpty then [(pre, s)] else []
  | RE.eos, pre, s =>
    match s with
    | [] => [(pre, s)]
    | ['\n'] => [(pre, s)]
    | _ => []
  | RE.wb, pre, s =>
    let lw := match pre with | c :: _ => pyWord c | [] => false
    let rw := match s with | c :: _ => pyWord c | [] => false
    if lw ≠ rw then [(pre, s)] else []
  | RE.nla a, pre, s => if (reRun a pre s).isEmpty then [(pre, s)] else []
  | RE.nlb cs, pre, s =>
    match pre with
    | [] => [(pre, s)]
    | c :: _ => if cs.contains c then [] else [(pre, s)]

/-- Search loop: try to match at every start position, like re.search. -/
def searchFrom (r : RE) : List Char → List Char → Bool
  | pre, s =>
    !(reRun r pre s).isEmpty ||
      (match s with
       | [] => false
       | c :: rest => searchFrom r (c :: pre) rest)

/-- Embedding of pattern.search(cmd) truthiness. -/
def reSearch (r : RE) (cmd : String) : Bool :=
  searchFrom r [] cmd.toList

/-- Concatenation of a list of regexes. -/
def rcat : List RE → RE
  | [] => RE.eps
  | [r] => r
  | r :: rs => RE.seq r (rcat rs)

/-- Literal string regex. -/
def rstr (s : String) : RE := rcat (s.toList.map RE.lit)

/-- Regex backslash-s-plus. -/
def wsP : RE := RE.seq (RE.cc CC.spc) (RE.starC CC.spc)

/-- Regex backslash-s-star. -/
def wsS : RE := RE.starC CC.spc

/-- Regex dot-star. -/
def anyS : RE := RE.starC CC.dot

/-- Embedding of HIGH_RISK_PATTERNS: the ordered high-tier table of
(matcher, action label, impact description) triples, with every regex
translated construct for construct; a comment gives the original. -/
def HIGH_RISK_PATTERNS : List (RE × String × String) := [
  -- \brm\s+-[^\s]*r
  (rcat [RE.wb, rstr "rm", wsP, RE.lit '-', RE.starC CC.nspc, RE.lit 'r'],
    "再帰的ファイル削除", "ファイルが永久に失われる可能性"),
  -- \brm\s+
  (rcat [RE.wb, rstr "rm", wsP], "ファイル削除", "ファイルが失われる可能性"),
  -- \bfind\b.*-delete\b
  (rcat [RE.wb, rstr "find", RE.wb, anyS, rstr "-delete", RE.wb],
    "find -delete", "条件に一致するファイルを一括削除"),
  -- \bfind\b.*-exec\b
  (rcat [RE.wb, rstr "find", RE.wb, anyS, rstr "-exec", RE.wb],
    "find -exec", "検索結果に対して任意のコマンドを実行"),
  -- \btruncate\b
  (rcat [RE.wb, rstr "truncate", RE.wb], "ファイル切り詰め", "ファイル内容が消去される"),
  -- \bgit\s+push\s+--force\b
  (rcat [RE.wb, rstr "git", wsP, rstr "push", wsP, rstr "--force", RE.wb],
    "git force push", "リモート履歴が上書きされる"),
  -- \bgit\s+push\b
  (rcat [RE.wb, rstr "git", wsP, rstr "push", RE.wb],
    "git push", "リモートリポジトリにコード送信"),
  -- \bgit\s+reset\s+--hard\b
  (rcat [RE.wb, rstr "git", wsP, rstr "reset", wsP, rstr "--hard", RE.wb],
    "git reset --hard", "未コミットの変更が全て失われる"),
  -- \bgit\s+clean\b
  (rcat [RE.wb, rstr "git", wsP, rstr "clean", RE.wb], "git clean", "未追跡ファイルを削除"),
  -- \bgit\s+checkout\s+\.\s*$
  (rcat [RE.wb, rstr "git", wsP, rstr "checkout", wsP, RE.lit '.', wsS, RE.eos],
    "git checkout .", "作業ツリーの変更を全て破棄"),
  -- \bgit\s+restore\s+\.\s*$
  (rcat [RE.wb, rstr "git", wsP, rstr "restore", wsP, RE.lit '.', wsS, RE.eos],
    "git restore .", "作業ツリーの変更を全て破棄"),
  -- \bgit\s+branch\s+-D\b
  (rcat [RE.wb, rstr "git", wsP, rstr "branch", wsP, rstr "-D", RE.wb],
    "ブランチ強制削除", "ブランチが復元不可能に削除"),
  -- \bgit\s+stash\s+clear\b
  (rcat [RE.wb, rstr "git", wsP, rstr "stash", wsP, rstr "clear", RE.wb],
    "stash全削除", "全stashが失われる"),
  -- \bgit\s+stash\s+drop\b
  (rcat [RE.wb, rstr "git", wsP, rstr "stash", wsP, rstr "drop", RE.wb],
    "stash削除", "stashエントリが失われる"),
  -- \bgh\s+pr\s+merge\b
  (rcat [RE.wb, rstr "gh", wsP, rstr "pr", wsP, rstr "merge", RE.wb],
    "PR マージ", "プルリクエストをマージ"),
  -- \bsudo\b
  (rcat [RE.wb, rstr "sudo", RE.wb], "管理者権限", "システム全体に影響を与える可能性"),
  -- \bsystemctl\b
  (rcat [RE.wb, rstr "systemctl", RE.wb], "サービス管理", "システムサービスの状態変更"),
  -- \blaunchctl\b
  (rcat [RE.wb, rstr "launchctl", RE.wb], "macOSサービス", "macOSシステムサービス操作"),
  -- \breboot\b
  (rcat [RE.wb, rstr "reboot", RE.wb], "再起動", "システムが再起動される"),
  -- \bshutdown\b
  (rcat [RE.wb, rstr "shutdown", RE.wb], "シャットダウン", "システムが停止する"),
  -- \bcurl\b.*\|\s*(ba)?sh\b
  (rcat [RE.wb, rstr "curl", RE.wb, anyS, RE.lit '|', wsS, RE.opt (rstr "ba"), rstr "sh", RE.wb],
    "リモートスクリプト実行", "外部スクリプトを直接実行"),
  -- \bwget\b.*\|\s*(ba)?sh\b
  (rcat [RE.wb, rstr "wget", RE.wb, anyS, RE.lit '|', wsS, RE.opt (rstr "ba"), rstr "sh", RE.wb],
    "リモートスクリプト実行", "外部スクリプトを直接実行"),
  -- \bchmod\b
  (rcat [RE.wb, rstr "chmod", RE.wb], "権限変更", "ファイルのアクセス権限を変更"),
  -- \bchown\b
  (rcat [RE.wb, rstr "chown", RE.wb], "所有者変更", "ファイルの所有者を変更"),
  -- \bkillall\b
  (rcat [RE.wb, rstr "killall", RE.wb], "全プロセス終了", "同名プロセスを全て終了"),
  -- \bkill\b
  (rcat [RE.wb, rstr "kill", RE.wb], "プロセス終了", "プロセスにシグナル送信"),
  -- \bsshpass\b
  (rcat [RE.wb, rstr "sshpass", RE.wb], "SSH(パスワード)", "パスワード付きSSH接続"),
  -- \bssh\b
  (rcat [RE.wb, rstr "ssh", RE.wb], "SSH接続", "リモートサーバーに接続"),
  -- \bscp\b
  (rcat [RE.wb, rstr "scp", RE.wb], "リモートコピー", "SSH経由でファイル転送"),
  -- \brsync\b
  (rcat [RE.wb, rstr "rsync", RE.wb], "リモート同期", "ファイルをリモートと同期"),
  -- \bsed\s+-i\b
  (rcat [RE.wb, rstr "sed", wsP, rstr "-i", RE.wb], "ファイル直接編集", "ファイルを直接書き換え"),
  -- \bdd\b
  (rcat [RE.wb, rstr "dd", RE.wb], "低レベルI/O", "ディスクに直接書き込み"),
  -- \beval\b
  (rcat [RE.wb, rstr "eval", RE.wb], "任意コード実行", "動的にコードを評価・実行"),
  -- \bcrontab\b
  (rcat [RE.wb, rstr "crontab", RE.wb], "定期実行設定", "スケジュールタスクを変更"),
  -- \bnpm\s+publish\b
  (rcat [RE.wb, rstr "npm", wsP, rstr "publish", RE.wb], "パッケージ公開", "npmレジストリに公開"),
  -- >>[^>]
  (rcat [rstr ">>", RE.cc (CC.noneOf ['>'])], "ファイル追記", "ファイルにデータを追記"),
  -- (?<![>12])>[^>]
  (rcat [RE.nlb ['>', '1', '2'], RE.lit '>', RE.cc (CC.noneOf ['>'])],
    "ファイル上書き", "ファイルを上書き")]

/-- Embedding of MEDIUM_RISK_PATTERNS, in declaration order. -/
def MEDIUM_RISK_PATTERNS : List (RE × String × String) := [
  -- \bnpm\s+(ci|install)\b
  (rcat [RE.wb, rstr "npm", wsP, RE.alt (rstr "ci") (rstr "install"), RE.wb],
    "npm install", "パッケージをインストール"),
  -- \byarn\s+(add|install)\b
  (rcat [RE.wb, rstr "yarn", wsP, RE.alt (rstr "add") (rstr "install"), RE.wb],
    "yarn install", "パッケージをインストール"),
  -- \bpip\s+install\b
  (rcat [RE.wb, rstr "pip", wsP, rstr "install", RE.wb],
    "pip install", "Pythonパッケージをインストール"),
  -- \bbrew\s+install\b
  (rcat [RE.wb, rstr "brew", wsP, rstr "install", RE.wb],
    "brew install", "Homebrewパッケージをインストール"),
  -- \bgem\s+install\b
  (rcat [RE.wb, rstr "gem", wsP, rstr "install", RE.wb],
    "gem install", "Rubyパッケージをインストール"),
  -- \bcargo\s+install\b
  (rcat [RE.wb, rstr "cargo", wsP, rstr "install", RE.wb],
    "cargo install", "Rustパッケージをインストール"),
  -- \bconda\s+install\b
  (rcat [RE.wb, rstr "conda", wsP, rstr "install", RE.wb],
    "conda install", "Condaパッケージをインストール"),
  -- \bbun\s+(add|install)\b
  (rcat [RE.wb, rstr "bun", wsP, RE.alt (rstr "add") (rstr "install"), RE.wb],
    "bun install", "パッケージをインストール"),
  -- \bgit\s+add\b
  (rcat [RE.wb, rstr "git", wsP, rstr "add", RE.wb], "git add", "ファイルをステージング"),
  -- \bgit\s+commit\b
  (rcat [RE.wb, rstr "git", wsP, rstr "commit", RE.wb], "git commit", "変更をコミット"),
  -- \bgit\s+checkout\b
  (rcat [RE.wb, rstr "git", wsP, rstr "checkout", RE.wb], "git checkout", "ブランチ切り替え"),
  -- \bgit\s+merge\b
  (rcat [RE.wb, rstr "git", wsP, rstr "merge", RE.wb], "git merge", "ブランチをマージ"),
  -- \bgit\s+pull\b
  (rcat [RE.wb, rstr "git", wsP, rstr "pull", RE.wb], "git pull", "リモートから取得・マージ"),
  -- \bgit\s+clone\b
  (rcat [RE.wb, rstr "git", wsP, rstr "clone", RE.wb], "git clone", "リポジトリをクローン"),
  -- \bgit\s+rebase\b
  (rcat [RE.wb, rstr "git", wsP, rstr "rebase", RE.wb], "git rebase", "コミット履歴を再構築"),
  -- \bgit\s+cherry-pick\b
  (rcat [RE.wb, rstr "git", wsP, rstr "cherry-pick", RE.wb],
    "git cherry-pick", "特定コミットを適用"),
  -- \bmkdir\b
  (rcat [RE.wb, rstr "mkdir", RE.wb], "ディレクトリ作成", "新しいフォルダを作成"),
  -- \btouch\b
  (rcat [RE.wb, rstr "touch", RE.wb], "ファイル作成/更新", "ファイルを作成または更新"),
  -- \bcp\b
  (rcat [RE.wb, rstr "cp", RE.wb], "ファイルコピー", "ファイルを複製"),
  -- \bmv\b
  (rcat [RE.wb, rstr "mv", RE.wb], "ファイル移動", "ファイルを移動/名前変更"),
  -- \bln\b
  (rcat [RE.wb, rstr "ln", RE.wb], "リンク作成", "シンボリック/ハードリンク作成"),
  -- \btee\b
  (rcat [RE.wb, rstr "tee", RE.wb], "tee出力", "標準出力とファイルに同時書き込み"),
  -- \btar\b
  (rcat [RE.wb, rstr "tar", RE.wb], "アーカイブ操作", "tar形式の圧縮/展開"),
  -- \bunzip\b
  (rcat [RE.wb, rstr "unzip", RE.wb], "ZIP展開", "ZIPファイルを展開"),
  -- \bzip\b
  (rcat [RE.wb, rstr "zip", RE.wb], "ZIP圧縮", "ZIPファイルを作成"),
  -- \bnpx\b
  (rcat [RE.wb, rstr "npx", RE.wb], "npx実行", "npmパッケージを直接実行"),
  -- \bnpm\s+(run|start|test)\b
  (rcat [RE.wb, rstr "npm", wsP, RE.alt (rstr "run") (RE.alt (rstr "start") (rstr "test")), RE.wb],
    "npmスクリプト", "npmスクリプトを実行"),
  -- \bnode\b
  (rcat [RE.wb, rstr "node", RE.wb], "Node.js実行", "JavaScriptを実行"),
  -- \bpython3?\b
  (rcat [RE.wb, rstr "python", RE.opt (RE.lit '3'), RE.wb], "Python実行", "Pythonスクリプトを実行"),
  -- \bruby\b
  (rcat [RE.wb, rstr "ruby", RE.wb], "Ruby実行", "Rubyスクリプトを実行"),
  -- \bjest\b
  (rcat [RE.wb, rstr "jest", RE.wb], "Jestテスト", "JavaScriptテストを実行"),
  -- \bpytest\b
  (rcat [RE.wb, rstr "pytest", RE.wb], "pytestテスト", "Pythonテストを実行"),
  -- \bplaywright\b
  (rcat [RE.wb, rstr "playwright", RE.wb], "Playwright", "ブラウザ自動テスト"),
  -- \bbun\s+run\b
  (rcat [RE.wb, rstr "bun", wsP, rstr "run", RE.wb], "bunスクリプト", "bunスクリプトを実行"),
  -- \bbun\s+test\b
  (rcat [RE.wb, rstr "bun", wsP, rstr "test", RE.wb], "bunテスト", "bunテストを実行"),
  -- \bmake\b
  (rcat [RE.wb, rstr "make", RE.wb], "make", "ビルド自動化を実行"),
  -- \bcmake\b
  (rcat [RE.wb, rstr "cmake", RE.wb], "cmake", "ビルドシステム生成"),
  -- \btsc\b
  (rcat [RE.wb, rstr "tsc", RE.wb], "TypeScriptコンパイル", "TypeScriptをコンパイル"),
  -- \bwebpack\b
  (rcat [RE.wb, rstr "webpack", RE.wb], "webpack", "モジュールバンドル実行"),
  -- \bswift\s+build\b
  (rcat [RE.wb, rstr "swift", wsP, rstr "build", RE.wb], "Swiftビルド", "Swiftプロジェクトをビルド"),
  -- \bswift\s+run\b
  (rcat [RE.wb, rstr "swift", wsP, rstr "run", RE.wb], "Swift実行", "Swiftプロジェクトを実行"),
  -- \bswift\s+test\b
  (rcat [RE.wb, rstr "swift", wsP, rstr "test", RE.wb], "Swiftテスト", "Swiftテストを実行"),
  -- \beslint\b
  (rcat [RE.wb, rstr "eslint", RE.wb], "ESLint", "JavaScript/TSリント実行"),
  -- \bprettier\b
  (rcat [RE.wb, rstr "prettier", RE.wb], "Prettier", "コードフォーマット実行"),
  -- \bblack\b
  (rcat [RE.wb, rstr "black", RE.wb], "Black", "Pythonフォーマット実行"),
  -- \bflask\b
  (rcat [RE.wb, rstr "flask", RE.wb], "Flask", "Pythonサーバー操作"),
  -- \bpsql\b
  (rcat [RE.wb, rstr "psql", RE.wb], "PostgreSQL", "PostgreSQLクライアント"),
  -- \bmysql\b
  (rcat [RE.wb, rstr "mysql", RE.wb], "MySQL", "MySQLクライアント"),
  -- \bsqlite3\b
  (rcat [RE.wb, rstr "sqlite3", RE.wb], "SQLite", "SQLiteクライアント"),
  -- \bdocker\b
  (rcat [RE.wb, rstr "docker", RE.wb], "Docker", "コンテナ管理"),
  -- \bkubectl\b
  (rcat [RE.wb, rstr "kubectl", RE.wb], "Kubernetes", "K8sクラスタ管理"),
  -- \bsupabase\b
  (rcat [RE.wb, rstr "supabase", RE.wb], "Supabase CLI", "Supabase操作"),
  -- \bcurl\b
  (rcat [RE.wb, rstr "curl", RE.wb], "HTTPリクエスト", "HTTP通信を実行"),
  -- \bwget\b
  (rcat [RE.wb, rstr "wget", RE.wb], "ダウンロード", "ファイルをダウンロード"),
  -- \bfirebase\s+deploy\b
  (rcat [RE.wb, rstr "firebase", wsP, rstr "deploy", RE.wb],
    "Firebaseデプロイ", "Firebaseにデプロイ"),
  -- \bterraform\b
  (rcat [RE.wb, rstr "terraform", RE.wb], "Terraform", "インフラ管理"),
  -- \bgcloud\b
  (rcat [RE.wb, rstr "gcloud", RE.wb], "Google Cloud", "GCPリソース操作"),
  -- \bvercel\b
  (rcat [RE.wb, rstr "vercel", RE.wb], "Vercel", "Vercelデプロイ/操作")]

/-- Embedding of LOW_RISK_PATTERNS, in declaration order. -/
def LOW_RISK_PATTERNS : List (RE × String × String) := [
  -- ^\s*ls\b
  (rcat [RE.bos, wsS, rstr "ls", RE.wb], "ファイル一覧", "ファイル一覧を表示"),
  -- ^\s*cat\b
  (rcat [RE.bos, wsS, rstr "cat", RE.wb], "ファイル表示", "ファイル内容を表示"),
  -- ^\s*head\b
  (rcat [RE.bos, wsS, rstr "head", RE.wb], "先頭表示", "ファイル先頭を表示"),
  -- ^\s*tail\b
  (rcat [RE.bos, wsS, rstr "tail", RE.wb], "末尾表示", "ファイル末尾を表示"),
  -- ^\s*tree\b
  (rcat [RE.bos, wsS, rstr "tree", RE.wb], "ディレクトリ構造", "ツリー表示"),
  -- ^\s*wc\b
  (rcat [RE.bos, wsS, rstr "wc", RE.wb], "行数/文字数", "ファイルの統計情報"),
  -- ^\s*file\b
  (rcat [RE.bos, wsS, rstr "file", RE.wb], "ファイル種別", "ファイルタイプを判定"),
  -- ^\s*less\b
  (rcat [RE.bos, wsS, rstr "less", RE.wb], "ページャ表示", "ファイルをページ送り表示"),
  -- ^\s*more\b
  (rcat [RE.bos, wsS, rstr "more", RE.wb], "ページャ表示", "ファイルをページ送り表示"),
  -- ^\s*pwd\b
  (rcat [RE.bos, wsS, rstr "pwd", RE.wb], "現在のディレクトリ", "作業ディレクトリを表示"),
  -- ^\s*cd\b
  (rcat [RE.bos, wsS, rstr "cd", RE.wb], "ディレクトリ移動", "ディレクトリを変更"),
  -- ^\s*uname\b
  (rcat [RE.bos, wsS, rstr "uname", RE.wb], "システム情報", "OS情報を表示"),
  -- ^\s*hostname\b
  (rcat [RE.bos, wsS, rstr "hostname", RE.wb], "ホスト名", "ホスト名を表示"),
  -- ^\s*whoami\b
  (rcat [RE.bos, wsS, rstr "whoami", RE.wb], "ユーザー名", "現在のユーザーを表示"),
  -- ^\s*date\b
  (rcat [RE.bos, wsS, rstr "date", RE.wb], "日時表示", "現在の日時を表示"),
  -- ^\s*uptime\b
  (rcat [RE.bos, wsS, rstr "uptime", RE.wb], "稼働時間", "システム稼働時間を表示"),
  -- ^\s*which\b
  (rcat [RE.bos, wsS, rstr "which", RE.wb], "コマンド場所", "コマンドのパスを表示"),
  -- ^\s*type\b
  (rcat [RE.bos, wsS, rstr "type", RE.wb], "コマンド種別", "コマンドの種類を表示"),
  -- ^\s*echo\b
  (rcat [RE.bos, wsS, rstr "echo", RE.wb], "echo出力", "テキストを出力"),
  -- ^\s*printf\b
  (rcat [RE.bos, wsS, rstr "printf", RE.wb], "printf出力", "テキストを出力"),
  -- ^\s*env\b
  (rcat [RE.bos, wsS, rstr "env", RE.wb], "環境変数", "環境変数を表示"),
  -- ^\s*printenv\b
  (rcat [RE.bos, wsS, rstr "printenv", RE.wb], "環境変数", "環境変数を表示"),
  -- ^\s*grep\b
  (rcat [RE.bos, wsS, rstr "grep", RE.wb], "テキスト検索", "テキストパターンを検索"),
  -- ^\s*rg\b
  (rcat [RE.bos, wsS, rstr "rg", RE.wb], "テキスト検索", "ripgrepで高速検索"),
  -- ^\s*find\b(?!.*(-delete|-exec))
  (rcat [RE.bos, wsS, rstr "find", RE.wb,
      RE.nla (rcat [anyS, RE.alt (rstr "-delete") (rstr "-exec")])],
    "ファイル検索", "ファイルを検索"),
  -- ^\s*diff\b
  (rcat [RE.bos, wsS, rstr "diff", RE.wb], "差分比較", "ファイルの差分を表示"),
  -- ^\s*sort\b
  (rcat [RE.bos, wsS, rstr "sort", RE.wb], "ソート", "行をソートして表示"),
  -- ^\s*uniq\b
  (rcat [RE.bos, wsS, rstr "uniq", RE.wb], "重複除去", "重複行を除去して表示"),
  -- ^\s*awk\b
  (rcat [RE.bos, wsS, rstr "awk", RE.wb], "テキスト処理", "テキストを加工して表示"),
  -- ^\s*sed\b(?!.*-i)
  (rcat [RE.bos, wsS, rstr "sed", RE.wb, RE.nla (rcat [anyS, rstr "-i"])],
    "テキスト変換", "テキストを変換して表示"),
  -- ^\s*cut\b
  (rcat [RE.bos, wsS, rstr "cut", RE.wb], "フィールド抽出", "テキストの一部を抽出"),
  -- ^\s*tr\b
  (rcat [RE.bos, wsS, rstr "tr", RE.wb], "文字変換", "文字を変換して表示"),
  -- ^\s*jq\b
  (rcat [RE.bos, wsS, rstr "jq", RE.wb], "JSON処理", "JSONを解析・表示"),
  -- ^\s*xargs\b
  (rcat [RE.bos, wsS, rstr "xargs", RE.wb], "引数変換", "標準入力を引数に変換"),
  -- ^\s*git\s+status\b
  (rcat [RE.bos, wsS, rstr "git", wsP, rstr "status", RE.wb],
    "git status", "作業ツリーの状態を表示"),
  -- ^\s*git\s+log\b
  (rcat [RE.bos, wsS, rstr "git", wsP, rstr "log", RE.wb], "git log", "コミット履歴を表示"),
  -- ^\s*git\s+branch\b(?!.*-[dD])
  (rcat [RE.bos, wsS, rstr "git", wsP, rstr "branch", RE.wb,
      RE.nla (rcat [anyS, RE.lit '-', RE.cc (CC.oneOf ['d', 'D'])])],
    "git branch", "ブランチ一覧を表示"),
  -- ^\s*git\s+diff\b
  (rcat [RE.bos, wsS, rstr "git", wsP, rstr "diff", RE.wb], "git diff", "差分を表示"),
  -- ^\s*git\s+show\b
  (rcat [RE.bos, wsS, rstr "git", wsP, rstr "show", RE.wb], "git show", "コミット内容を表示"),
  -- ^\s*git\s+remote\b
  (rcat [RE.bos, wsS, rstr "git", wsP, rstr "remote", RE.wb], "git remote", "リモート情報を表示"),
  -- ^\s*git\s+tag\b
  (rcat [RE.bos, wsS, rstr "git", wsP, rstr "tag", RE.wb], "git tag", "タグ一覧を表示"),
  -- ^\s*git\s+stash\s+list\b
  (rcat [RE.bos, wsS, rstr "git", wsP, rstr "stash", wsP, rstr "list", RE.wb],
    "git stash list", "stash一覧を表示"),
  -- ^\s*git\s+rev-parse\b
  (rcat [RE.bos, wsS, rstr "git", wsP, rstr "rev-parse", RE.wb],
    "git rev-parse", "Gitリファレンスを解決"),
  -- ^\s*npm\s+list\b
  (rcat [RE.bos, wsS, rstr "npm", wsP, rstr "list", RE.wb], "npm list", "パッケージ一覧を表示"),
  -- ^\s*npm\s+ls\b
  (rcat [RE.bos, wsS, rstr "npm", wsP, rstr "ls", RE.wb], "npm ls", "パッケージ一覧を表示"),
  -- ^\s*npm\s+view\b
  (rcat [RE.bos, wsS, rstr "npm", wsP, rstr "view", RE.wb], "npm view", "パッケージ情報を表示"),
  -- ^\s*pip\s+show\b
  (rcat [RE.bos, wsS, rstr "pip", wsP, rstr "show", RE.wb], "pip show", "パッケージ情報を表示"),
  -- ^\s*pip\s+list\b
  (rcat [RE.bos, wsS, rstr "pip", wsP, rstr "list", RE.wb], "pip list", "パッケージ一覧を表示"),
  -- ^\s*brew\s+info\b
  (rcat [RE.bos, wsS, rstr "brew", wsP, rstr "info", RE.wb], "brew info", "パッケージ情報を表示"),
  -- ^\s*brew\s+list\b
  (rcat [RE.bos, wsS, rstr "brew", wsP, rstr "list", RE.wb], "brew list", "パッケージ一覧を表示"),
  -- ^\s*ping\b
  (rcat [RE.bos, wsS, rstr "ping", RE.wb], "ping", "接続テスト"),
  -- ^\s*dig\b
  (rcat [RE.bos, wsS, rstr "dig", RE.wb], "DNS検索", "DNSレコードを照会"),
  -- ^\s*nslookup\b
  (rcat [RE.bos, wsS, rstr "nslookup", RE.wb], "DNS照会", "DNSを照会"),
  -- ^\s*gh\s+pr\s+(list|view|status)\b
  (rcat [RE.bos, wsS, rstr "gh", wsP, rstr "pr", wsP,
      RE.alt (rstr "list") (RE.alt (rstr "view") (rstr "status")), RE.wb],
    "PR情報表示", "PRの状態を確認"),
  -- ^\s*gh\s+issue\s+(list|view)\b
  (rcat [RE.bos, wsS, rstr "gh", wsP, rstr "issue", wsP,
      RE.alt (rstr "list") (rstr "view"), RE.wb],
    "Issue情報表示", "Issueを確認"),
  -- ^\s*gh\s+api\b
  (rcat [RE.bos, wsS, rstr "gh", wsP, rstr "api", RE.wb], "GitHub API", "GitHub APIを呼び出し")]

/-- First table entry whose pattern search succeeds on `cmd`, giving its
(action, risk) pair; embeds the for-loops of classify_risk. -/
def findMatch : List (RE × String × String) → String → Option (String × String)
  | [], _ => none
  | (p, action, risk) :: rest, cmd =>
    if reSearch p cmd then some (action, risk) else findMatch rest cmd

/-- The tool_input dictionary, modelled as an association list of string
keys to string values (every key the hook reads holds a string). -/
def ToolInput : Type := List (String × String)

/-- Embedding of tool_input.get(key, ""). -/
def getStr (d : ToolInput) (k : String) : String :=
  match List.find? (fun kv => kv.1 = k) d with
  | some kv => kv.2
  | none => ""

/-- Embedding of path.rsplit("/", 1)[-1] if "/" in path else path. -/
def basenameAfterSlash (path : String) : String :=
  if path.toList.contains '/' then
    String.mk ((path.toList.reverse.takeWhile (fun c => c ≠ '/')).reverse)
  else path

/-- Embedding of classify_risk: high tier first, then low, then medium,
then the unclassified-command default; Edit/Write and all other tools
return medium verdicts. -/
def classify_risk (tool_name : String) (tool_input : ToolInput) : String × String × String :=
  if tool_name = "Bash" then
    let cmd := getStr tool_input "command"
    match findMatch HIGH_RISK_PATTERNS cmd with
    | some (action, risk) => ("high", action, risk)
    | none =>
      match findMatch LOW_RISK_PATTERNS cmd with
      | some (action, risk) => ("low", action, risk)
      | none =>
        match findMatch MEDIUM_RISK_PATTERNS cmd with
        | some (action, risk) => ("medium", action, risk)
        | none => ("medium", "コマンド実行", "未分類のコマンド")
  else if tool_name = "Edit" ∨ tool_name = "Write" then
    let path := getStr tool_input "file_path"
    let name := basenameAfterSlash path
    if tool_name = "Write" then ("medium", "ファイル作成: " ++ name, "新しいファイルを作成")
    else ("medium", "ファイル編集: " ++ name, "既存ファイルを編集")
  else ("medium", tool_name ++ " 実行", "ツール実行")

/-- Substring occurrence scan over character lists. -/
def listInfix (sub : List Char) : List Char → Bool
  | [] => sub.isPrefixOf []
  | c :: t => sub.isPrefixOf (c :: t) || listInfix sub t

/-- Embedding of the Python substring test (sub in s). -/
def strContains (s sub : String) : Bool :=
  listInfix sub.toList s.toList

/-- Embedding of the standalone-ampersand scan of _has_compound_operators:
an ampersand not followed by another ampersand or a greater-than sign
(pairs are skipped wholesale). -/
def standaloneAmp : List Char → Bool
  | [] => false
  | '&' :: '&' :: rest => standaloneAmp rest
  | '&' :: '>' :: rest => standaloneAmp rest
  | '&' :: _ => true
  | _ :: rest => standaloneAmp rest

/-- Embedding of _has_compound_operators. -/
def _has_compound_operators (cmd : String) : Bool :=
  strContains cmd ";" || strContains cmd "&&" || strContains cmd "||" ||
    standaloneAmp cmd.toList

/-- Longest word-character run at the head of the input, embedding the
greedy word-plus group of the allow-pattern regex. -/
def takeWord : List Char → List Char × List Char
  | [] => ([], [])
  | c :: rest =>
    if pyWord c then
      let wr := takeWord rest
      (c :: wr.1, wr.2)
    else ([], c :: rest)

/-- Remove a single final newline, embedding the fact that the dollar
anchor of re.match also matches just before one trailing newline. -/
def stripTrailNL (cs : List Char) : List Char :=
  match cs.reverse with
  | '\n' :: rest => rest.reverse
  | _ => cs

/-- Embedding of re.match of the anchored pattern caret word-plus with an
optional parenthesised nonempty dot-plus group at the end, as used by
_match_allow_pattern, together with the two group extractions: returns
(tool name, optional argument) on match.  The greedy dot-plus makes the
argument run from the first opening parenthesis to the last closing
parenthesis; dot never matches a newline. -/
def parseAllowPat (pat : String) : Option (String × Option String) :=
  let cs := stripTrailNL pat.toList
  let wr := takeWord cs
  if wr.1.isEmpty then none
  else
    match wr.2 with
    | [] => some (String.mk wr.1, none)
    | '(' :: rest =>
      match rest.reverse with
      | ')' :: revMid =>
        let mid := revMid.reverse
        if mid.isEmpty then none
        else if mid.contains '\n' then none
        else some (String.mk wr.1, some (String.mk mid))
      | _ => none
    | _ => none

/-- Embedding of cmd.startswith(pre). -/
def pyStartsWith (s pre : String) : Bool :=
  pre.toList.isPrefixOf s.toList

/-- Embedding of arg.endswith(":*"). -/
def pyEndsWith (s suffix : String) : Bool :=
  suffix.toList.isSuffixOf s.toList

/-- Embedding of arg[:-2]. -/
def pyDropLast2 (s : String) : String :=
  String.mk s.toList.dropLast.dropLast

/-- Embedding of _match_allow_pattern: parse the entry, require the tool
name to agree, then authorize on a bare tool entry, a prefix entry whose
prefix the command extends, or an exactly equal argument. -/
def _match_allow_pattern (pat tool_name cmd : String) : Bool :=
  match parseAllowPat pat with
  | none => false
  | some (patTool, patArg) =>
    if patTool ≠ tool_name then false
    else
      match patArg with
      | none => true
      | some arg =>
        if pyEndsWith arg ":*" then pyStartsWith cmd (pyDropLast2 arg)
        else cmd = arg

/-- One loaded settings.json document, reduced to the permissions.allow
list the source reads from it (missing keys default to the empty list). -/
structure SettingsDoc where
  allow : List String

/-- Embedding of is_allowed_by_settings with the loaded settings
documents passed explicitly (the source obtains them from the
filesystem via _load_settings_files). -/
def is_allowed_by_settings (settings_list : List SettingsDoc) (tool_name : String)
    (tool_input : ToolInput) : Bool :=
  if tool_name ≠ "Bash" then false
  else
    let cmd := getStr tool_input "command"
    if _has_compound_operators cmd then false
    else
      settings_list.any (fun s =>
        s.allow.any (fun pat => _match_allow_pattern pat tool_name cmd))

/-- Embedding of summarize_fallback. -/
def summarize_fallback (tool_name : String) (tool_input : ToolInput) : String :=
  if tool_name = "Bash" then
    let cmd := getStr tool_input "command"
    if pyStartsWith cmd "rm " then "ファイル/フォルダの削除"
    else if pyStartsWith cmd "mkdir" then "ディレクトリ作成"
    else if strContains cmd "git " then "Git操作"
    else if strContains cmd "npm " || strContains cmd "bun " then "パッケージ操作"
    else if pyStartsWith cmd "curl" then "HTTP リクエスト"
    else if pyStartsWith cmd "swift" then "Swiftビルド/実行"
    else "コマンド実行"
  else if tool_name = "Write" then
    "ファイル作成: " ++ basenameAfterSlash (getStr tool_input "file_path")
  else if tool_name = "Edit" then
    "ファイル編集: " ++ basenameAfterSlash (getStr tool_input "file_path")
  else tool_name ++ " 実行"

/-- JSON-like values appearing in the notify payload. -/
inductive JVal where
  | s (v : String)
  | obj (kvs : List (String × String))
deriving DecidableEq

/-- Embedding of the payload dictionary notify_approver serializes and
posts: exactly these six keys, in this order. -/
def notifyPayload (tool_name : String) (tool_input : ToolInput)
    (summary risk_level risk_action risk_description : String) : List (String × JVal) :=
  [("tool_name", JVal.s tool_name),
   ("tool_input", JVal.obj tool_input),
   ("summary", JVal.s summary),
   ("risk_level", JVal.s risk_level),
   ("risk_action", JVal.s risk_action),
   ("risk_description", JVal.s risk_description)]

/-- Embedding of the notification decision of main (steps 1 to 4): none
means silent exit without notifying, some p means a notification with
payload p is dispatched.  `ollamaSummary` stands for the response of the
external summarization service (none, or some nonempty summary), which
summarize_with_ollama would return; on none the rule-based fallback is
used, exactly as in main. -/
def mainDecision (settings_list : List SettingsDoc) (ollamaSummary : Option String)
    (tool_name : String) (tool_input : ToolInput) : Option (List (String × JVal)) :=
  let v := classify_risk tool_name tool_input
  if v.1 = "low" then none
  else if v.1 = "medium" ∧ is_allowed_by_settings settings_list tool_name tool_input then none
  else
    let summary :=
      match ollamaSummary with
      | some s => s
      | none => summarize_fallback tool_name tool_input
    some (notifyPayload tool_name tool_input summary v.1 v.2.1 v.2.2)

/-- Splitting of a command on the sequencing operators of the spec: the
two-character operators for and/or plus the semicolon, a single
ampersand never splitting. -/
def splitSeqOps : List Char → List (List Char)
  | [] => [[]]
  | '&' :: '&' :: rest => [] :: splitSeqOps rest
  | '|' :: '|' :: rest => [] :: splitSeqOps rest
  | ';' :: rest => [] :: splitSeqOps rest
  | c :: rest =>
    match splitSeqOps rest with
    | [] => [[c]]
    | seg :: segs => (c :: seg) :: segs

/-- Whitespace trim at both ends of a character list. -/
def trimWS (cs : List Char) : List Char :=
  ((cs.dropWhile isPySpace).reverse.dropWhile isPySpace).reverse

/-- A bare directory-change segment: after trimming, the word cd alone
or cd followed by an argument. -/
def isCdSeg (seg : List Char) : Bool :=
  let t := trimWS seg
  t == "cd".toList || "cd ".toList.isPrefixOf t

/-- Modelled from the spec: the compound-command resolver of section 4.2,
which has no counterpart anywhere in the source.  Split on the
sequencing operators, scan from the end for the last segment that is not
a bare directory change and return it; if there are no operators, or
every segment is a directory change, return the original text
unchanged. -/
def resolve_spec (cmd : String) : String :=
  let segs := splitSeqOps cmd.toList
  match segs with
  | [] => cmd
  | [_] => cmd
  | _ =>
    match segs.reverse.find? (fun seg => !isCdSeg seg) with
    | some seg => String.mk (trimWS seg)
    | none => cmd

/-- JSON values, for the embedding of json.loads. -/
inductive Json where
  | null
  | jb (b : Bool)
  | jn (n : Int)
  | js (v : String)
  | jarr (xs : List Json)
  | jobj (kvs : List (String × Json))

/-- JSON inter-token whitespace. -/
def isJsonWS (c : Char) : Bool :=
  c = ' ' || c = '\t' || c = '\n' || c = '\x0d'

/-- Recognized escape characters after a backslash in a JSON string
(the unicode escape form is not modelled). -/
def escChar : Char → Option Char
  | '"' => some '"'
  | '\\' => some '\\'
  | '/' => some '/'
  | 'b' => some (Char.ofNat 8)
  | 'f' => some (Char.ofNat 12)
  | 'n' => some '\n'
  | 'r' => some '\x0d'
  | 't' => some '\t'
  | _ => none

/-- Body of a JSON string after the opening quote, strict about raw
control characters as json.loads is. -/
def parseStrBody : List Char → Except String (List Char × List Char)
  | [] => Except.error "Unterminated string"
  | '"' :: rest => Except.ok ([], rest)
  | '\\' :: e :: rest =>
    match escChar e with
    | none => Except.error "Invalid escape"
    | some c =>
      match parseStrBody rest with
      | Except.ok (s, r) => Except.ok (c :: s, r)
      | Except.error msg => Except.error msg
  | '\\' :: [] => Except.error "Unterminated string"
  | c :: rest =>
    if c.toNat < 32 then Except.error "Invalid control character"
    else
      match parseStrBody rest with
      | Except.ok (s, r) => Except.ok (c :: s, r)
      | Except.error msg => Except.error msg

/-- Decimal digit run to a natural number. -/
def digitsVal (ds : List Char) : Nat :=
  ds.foldl (fun acc c => 10 * acc + (c.toNat - 48)) 0

/-- Integer token of JSON (fractions and exponents are not modelled;
no verified input contains a number). -/
def parseIntTok (cs : List Char) : Except String (Int × List Char) :=
  let negp := match cs with | '-' :: _ => true | _ => false
  let body := if negp then cs.drop 1 else cs
  let ds := body.takeWhile Char.isDigit
  let rest := body.dropWhile Char.isDigit
  if ds.isEmpty then Except.error "Expecting value"
  else Except.ok (if negp then -(digitsVal ds : Int) else (digitsVal ds : Int), rest)

mutual

/-- JSON value parser, fueled; embeds the grammar json.loads accepts on
the ASCII subset used here. -/
def parseVal : Nat → List Char → Except String (Json × List Char)
  | 0, _ => Except.error "Recursion limit"
  | Nat.succ fuel, cs =>
    match cs.dropWhile isJsonWS with
    | 'n' :: 'u' :: 'l' :: 'l' :: r => Except.ok (Json.null, r)
    | 't' :: 'r' :: 'u' :: 'e' :: r => Except.ok (Json.jb true, r)
    | 'f' :: 'a' :: 'l' :: 's' :: 'e' :: r => Except.ok (Json.jb false, r)
    | '"' :: r =>
      match parseStrBody r with
      | Except.ok (s, r2) => Except.ok (Json.js (String.mk s), r2)
      | Except.error msg => Except.error msg
    | '[' :: r =>
      (match r.dropWhile isJsonWS with
       | ']' :: r2 => Except.ok (Json.jarr [], r2)
       | _ =>
         match parseItems fuel r with
         | Except.ok (xs, r2) => Except.ok (Json.jarr xs, r2)
         | Except.error msg => Except.error msg)
    | '{' :: r =>
      (match r.dropWhile isJsonWS with
       | '}' :: r2 => Except.ok (Json.jobj [], r2)
       | _ =>
         match parseMembers fuel r with
         | Except.ok (kvs, r2) => Except.ok (Json.jobj kvs, r2)
         | Except.error msg => Except.error msg)
    | c :: r =>
      if c.isDigit || c = '-' then
        match parseIntTok (c :: r) with
        | Except.ok (n, r2) => Except.ok (Json.jn n, r2)
        | Except.error msg => Except.error msg
      else Except.error "Expecting value"
    | [] => Except.error "Expecting value"

/-- Comma-separated array items up to the closing bracket. -/
def parseItems : Nat → List Char → Except String (List Json × List Char)
  | 0, _ => Except.error "Recursion limit"
  | Nat.succ fuel, cs =>
    match parseVal fuel cs with
    | Except.error msg => Except.error msg
    | Except.ok (v, r) =>
      match r.dropWhile isJsonWS with
      | ',' :: r2 =>
        (match parseItems fuel r2 with
         | Except.ok (xs, r3) => Except.ok (v :: xs, r3)
         | Except.error msg => Except.error msg)
      | ']' :: r2 => Except.ok ([v], r2)
      | _ => Except.error "Expecting comma or closing bracket"

/-- Comma-separated object members up to the closing brace. -/
def parseMembers : Nat → List Char → Except String (List (String × Json) × List Char)
  | 0, _ => Except.error "Recursion limit"
  | Nat.succ fuel, cs =>
    match cs.dropWhile isJsonWS with
    | '"' :: r =>
      (match parseStrBody r with
       | Except.error msg => Except.error msg
       | Except.ok (k, r2) =>
         match r2.dropWhile isJsonWS with
         | ':' :: r3 =>
           (match parseVal fuel r3 with
            | Except.error msg => Except.error msg
            | Except.ok (v, r4) =>
              match r4.dropWhile isJsonWS with
              | ',' :: r5 =>
                (match parseMembers fuel r5 with
                 | Except.ok (kvs, r6) => Except.ok ((String.mk k, v) :: kvs, r6)
                 | Except.error msg => Except.error msg)
              | '}' :: r5 => Except.ok ([(String.mk k, v)], r5)
              | _ => Except.error "Expecting comma or closing brace")
         | _ => Except.error "Expecting colon")
    | _ => Except.error "Expecting property name"

end

/-- Embedding of json.loads: a complete value with only whitespace
after it. -/
def json_loads (raw : String) : Except String Json :=
  match parseVal (raw.length + 1) raw.toList with
  | Except.error msg => Except.error msg
  | Except.ok (v, rest) =>
    if (rest.dropWhile isJsonWS).isEmpty then Except.ok v
    else Except.error "Extra data"

/-- Embedding of read_input: a blank stdin yields None (and main then
exits 0 silently); any other stdin is handed to json.loads, whose parse
error propagates out of read_input uncaught, so the ok/error split of
the result mirrors the normal-return/raised-exception split of the
source. -/
def read_input (raw : String) : Except String (Option Json) :=
  if raw.toList.all isPySpace then Except.ok none
  else
    match json_loads raw with
    | Except.ok v => Except.ok (some v)
    | Except.error msg => Except.error msg

theorem findMatch_isSome_of_any (l : List (RE × String × String)) (cmd : String)
    (h : l.any (fun r => reSearch r.1 cmd) = true) : (findMatch l cmd).isSome = true := by
  induction l with
  | nil => simp at h
  | cons hd tl ih =>
    obtain ⟨p, a, r⟩ := hd
    simp only [List.any_cons, Bool.or_eq_true] at h
    by_cases hp : reSearch p cmd = true
    · simp [findMatch, hp]
    · simp only [findMatch, hp, if_false]
      rcases h with h | h
      · exact absurd h hp
      · exact ih h

theorem findMatch_eq_none_of_all (l : List (RE × String × String)) (cmd : String)
    (h : l.all (fun r => !reSearch r.1 cmd) = true) : findMatch l cmd = none := by
  induction l with
  | nil => rfl
  | cons hd tl ih =>
    obtain ⟨p, a, r⟩ := hd
    simp only [List.all_cons, Bool.and_eq_true, Bool.not_eq_true'] at h
    simp [findMatch, h.1, ih h.2]

/-- C1 (corrected claim): for every non-shell tool invocation — Edit,
Write, and any other tool that is not Bash — classify_risk returns the
medium verdict, and because non-Bash invocations are never allow-listed
the orchestrator always dispatches a notification for them. -/
theorem nonshell_tools_classify_medium_and_notify (t : String) (i : ToolInput)
    (s : List SettingsDoc) (ol : Option String) (h : t ≠ "Bash") :
    (classify_risk t i).1 = "medium" ∧ (mainDecision s ol t i).isSome = true := by
  have hA : is_allowed_by_settings s t i = false := by
    unfold is_allowed_by_settings
    rw [if_pos h]
  have hc : ∃ a d, classify_risk t i = ("medium", a, d) := by
    unfold classify_risk
    rw [if_neg h]
    by_cases h2 : t = "Edit" ∨ t = "Write"
    · rw [if_pos h2]
      by_cases h3 : t = "Write"
      · rw [if_pos h3]; exact ⟨_, _, rfl⟩
      · rw [if_neg h3]; exact ⟨_, _, rfl⟩
    · rw [if_neg h2]; exact ⟨_, _, rfl⟩
  obtain ⟨a, d, hc⟩ := hc
  refine ⟨by rw [hc], ?_⟩
  simp [mainDecision, hc, hA]

/-- C1 witness: the Edit invocation on /tmp/x.txt is classified medium
and notified. -/
theorem nonshell_tools_classify_medium_and_notify_witness :
    (classify_risk "Edit" [("file_path", "/tmp/x.txt")]).1 = "medium" ∧
      (mainDecision [] none "Edit" [("file_path", "/tmp/x.txt")]).isSome = true :=
  nonshell_tools_classify_medium_and_notify "Edit" [("file_path", "/tmp/x.txt")] [] none
    (by decide)

/-- C1 counterexample: the claim says Edit is classified low and never
notified; on the concrete Edit invocation the verdict is not low and a
notification is dispatched. -/
theorem edit_invocation_not_low_and_notified :
    (classify_risk "Edit" [("file_path", "/tmp/x.txt")]).1 ≠ "low" ∧
      (mainDecision [] none "Edit" [("file_path", "/tmp/x.txt")]).isSome = true := by
  refine ⟨by decide, by decide⟩

/-- C2: whenever some high-tier rule matches the command of a Bash
invocation, classify_risk returns the high verdict, and the
orchestrator dispatches a notification regardless of the contents of
the allow-list (the allow-list short-circuit only ever fires on medium
verdicts). -/
theorem high_tier_match_never_demoted (i : ToolInput) (s : List SettingsDoc)
    (ol : Option String)
    (h : HIGH_RISK_PATTERNS.any (fun r => reSearch r.1 (getStr i "command")) = true) :
    (classify_risk "Bash" i).1 = "high" ∧ (mainDecision s ol "Bash" i).isSome = true := by
  have hs := findMatch_isSome_of_any HIGH_RISK_PATTERNS (getStr i "command") h
  obtain ⟨⟨a, d⟩, heq⟩ := Option.isSome_iff_exists.mp hs
  have hc : classify_risk "Bash" i = ("high", a, d) := by
    unfold classify_risk
    rw [if_pos rfl]
    simp only [heq]
  refine ⟨by rw [hc], ?_⟩
  simp [mainDecision, hc]

/-- C2 witness: sudo ls matches a high-tier rule and is notified even
though the settings contain a bare Bash allow-everything entry. -/
theorem high_tier_match_never_demoted_witness :
    (classify_risk "Bash" [("command", "sudo ls")]).1 = "high" ∧
      (mainDecision [SettingsDoc.mk ["Bash"]] none "Bash" [("command", "sudo ls")]).isSome
        = true :=
  high_tier_match_never_demoted [("command", "sudo ls")] [SettingsDoc.mk ["Bash"]] none
    (by decide)

/-- C3: high-tier classification is applied to the full original command
text: the chain starting with a benign directory change and hiding a
recursive delete mid-chain is classified high by the first high-tier
rule. -/
theorem high_tier_checks_full_text_of_cd_chain :
    classify_risk "Bash" [("command", "cd /tmp && rm -rf important/")] =
      ("high", "再帰的ファイル削除", "ファイルが永久に失われる可能性") := by
  decide

/-- C4 counterexample: the spec-modelled resolver reduces the chain to
npm install, and the allow entry for that prefix matches the resolved
text, yet the code refuses to allow-list the chain and classifies it
low (its text begins with cd), so neither medium-tier classification nor
allow-list matching operates on a resolved tail. -/
theorem resolved_tail_not_used_by_code :
    resolve_spec "cd /a && cd /b && npm install" = "npm install" ∧
      _match_allow_pattern "Bash(npm install:*)" "Bash"
        (resolve_spec "cd /a && cd /b && npm install") = true ∧
      is_allowed_by_settings [SettingsDoc.mk ["Bash(npm install:*)"]] "Bash"
        [("command", "cd /a && cd /b && npm install")] = false ∧
      classify_risk "Bash" [("command", "cd /a && cd /b && npm install")] =
        ("low", "ディレクトリ移動", "ディレクトリを変更") := by
  refine ⟨by decide, by decide, by decide, by decide⟩

/-- C4 (corrected claim): the code has no compound-command resolver:
medium- and low-tier classification test the full original text, so the
cd-prefixed chain is classified low by the cd rule, and a command
containing sequencing operators is never allow-listed under any
settings. -/
theorem compound_chain_classified_low_and_never_allowlisted :
    classify_risk "Bash" [("command", "cd /a && cd /b && npm install")] =
      ("low", "ディレクトリ移動", "ディレクトリを変更") ∧
    ∀ s : List SettingsDoc,
      is_allowed_by_settings s "Bash" [("command", "cd /a && cd /b && npm install")] = false := by
  refine ⟨by decide, fun s => ?_⟩
  have hcomp : _has_compound_operators
      (getStr [("command", "cd /a && cd /b && npm install")] "command") = true := by decide
  unfold is_allowed_by_settings
  rw [if_neg (by simp)]
  simp only [hcomp, if_true]

/-- C5 counterexample: the command hello matches no high-tier rule and
no medium-tier rule (and no low-tier rule), yet classify_risk returns
the medium default, not low. -/
theorem unmatched_command_is_medium_not_low :
    (HIGH_RISK_PATTERNS.all fun r => !reSearch r.1 "hello") = true ∧
      (MEDIUM_RISK_PATTERNS.all fun r => !reSearch r.1 "hello") = true ∧
      (classify_risk "Bash" [("command", "hello")]).1 ≠ "low" ∧
      classify_risk "Bash" [("command", "hello")] =
        ("medium", "コマンド実行", "未分類のコマンド") := by
  refine ⟨by decide, by decide, by decide, by decide⟩

/-- C5 (corrected claim): a Bash command that matches no rule of any of
the three tiers is classified with the hard-coded medium default, the
unclassified-command verdict. -/
theorem no_tier_match_defaults_to_medium (i : ToolInput)
    (hh : (HIGH_RISK_PATTERNS.all fun r => !reSearch r.1 (getStr i "command")) = true)
    (hl : (LOW_RISK_PATTERNS.all fun r => !reSearch r.1 (getStr i "command")) = true)
    (hm : (MEDIUM_RISK_PATTERNS.all fun r => !reSearch r.1 (getStr i "command")) = true) :
    classify_risk "Bash" i = ("medium", "コマンド実行", "未分類のコマンド") := by
  have e1 := findMatch_eq_none_of_all HIGH_RISK_PATTERNS (getStr i "command") hh
  have e2 := findMatch_eq_none_of_all LOW_RISK_PATTERNS (getStr i "command") hl
  have e3 := findMatch_eq_none_of_all MEDIUM_RISK_PATTERNS (getStr i "command") hm
  unfold classify_risk
  rw [if_pos rfl]
  simp only [e1, e2, e3]

/-- C5 witness: hello matches nothing and gets the medium default. -/
theorem no_tier_match_defaults_to_medium_witness :
    classify_risk "Bash" [("command", "hello")] =
      ("medium", "コマンド実行", "未分類のコマンド") :=
  no_tier_match_defaults_to_medium [("command", "hello")] (by decide) (by decide) (by decide)

/-- C6 counterexample: the claim says the entry Bash(git status:*) does
not authorize git status-like-command; the code authorizes it, because
prefix matching is plain string startswith. -/
theorem plain_prefix_authorizes_like_command :
    is_allowed_by_settings [SettingsDoc.mk ["Bash(git status:*)"]] "Bash"
      [("command", "git status-like-command")] = true := by
  decide

/-- C6 (corrected claim): the entry Bash(git status:*) authorizes
exactly the Bash invocations whose command starts with the plain string
prefix git status — including git status --short and also
git status-like-command — and never an invocation of another tool. -/
theorem allow_entry_matches_exactly_plain_prefixes (tool cmd : String) :
    _match_allow_pattern "Bash(git status:*)" tool cmd =
      if tool = "Bash" then pyStartsWith cmd "git status" else false := by
  have hp : parseAllowPat "Bash(git status:*)" = some ("Bash", some "git status:*") := by
    decide
  unfold _match_allow_pattern
  rw [hp]
  by_cases h : tool = "Bash"
  · subst h
    simp only [if_pos rfl]
    have he : pyEndsWith "git status:*" ":*" = true := by decide
    have hd : pyDropLast2 "git status:*" = "git status" := by decide
    simp [he, hd]
  · have hne : "Bash" ≠ tool := fun he => h he.symm
    simp [h, hne]

/-- C7 (code bug evidence): a blank stdin makes read_input return None
so main exits 0 silently, but a non-blank stdin that is not valid JSON
makes json.loads raise inside read_input — modelled as the error
outcome — and no handler exists in main, so the process terminates with
a traceback and a failure status, contradicting the documented
always-exit-0 behavior. -/
theorem read_input_malformed_errors_blank_silent :
    read_input "x" = Except.error "Expecting value" ∧
      read_input "" = Except.ok none ∧ read_input " \n " = Except.ok none := by
  refine ⟨by rfl, by rfl, by rfl⟩

/-- C8 counterexample: the payload dispatched for the unauthorized
git push carries exactly the six keys of notify_approver — there is no
enriched-context field and neither of the two correlation-identifier
fields the claim describes. -/
theorem push_payload_has_only_six_keys :
    (mainDecision [] none "Bash" [("command", "git push origin main")]).map
        (fun p => p.map Prod.fst) =
      some ["tool_name", "tool_input", "summary", "risk_level", "risk_action",
        "risk_description"] := by
  decide

/-- C8 (corrected claim): the unauthorized git push origin main is
classified high and a notification is dispatched whose payload carries
the tool identity, the raw parameters, the fallback summary and the
three risk verdict fields — and nothing else. -/
theorem push_notification_dispatched_with_risk_fields :
    mainDecision [] none "Bash" [("command", "git push origin main")] =
      some [("tool_name", JVal.s "Bash"),
        ("tool_input", JVal.obj [("command", "git push origin main")]),
        ("summary", JVal.s "Git操作"),
        ("risk_level", JVal.s "high"),
        ("risk_action", JVal.s "git push"),
        ("risk_description", JVal.s "リモートリポジトリにコード送信")] := by
  decide

/-- C9: classify_risk and is_allowed_by_settings are pure functions of
the invocation and the (explicitly passed) configuration state: two
invocations agreeing on the only fields read — command and file_path —
receive identical verdicts and identical allow-list answers, so
repeated calls on identical input trivially coincide, and totality of
the embedding reflects that classification cannot fail. -/
theorem classify_and_allowlist_depend_only_on_invocation (t : String) (i1 i2 : ToolInput)
    (s : List SettingsDoc)
    (h1 : getStr i1 "command" = getStr i2 "command")
    (h2 : getStr i1 "file_path" = getStr i2 "file_path") :
    classify_risk t i1 = classify_risk t i2 ∧
      is_allowed_by_settings s t i1 = is_allowed_by_settings s t i2 := by
  constructor
  · unfold classify_risk
    rw [h1, h2]
  · unfold is_allowed_by_settings
    rw [h1]

/-- C9 witness: an extra irrelevant key in the tool input changes
neither the verdict nor the allow-list answer. -/
theorem classify_and_allowlist_depend_only_on_invocation_witness :
    classify_risk "Bash" [("command", "ls"), ("extra", "1")] =
        classify_risk "Bash" [("command", "ls")] ∧
      is_allowed_by_settings [] "Bash" [("command", "ls"), ("extra", "1")] =
        is_allowed_by_settings [] "Bash" [("command", "ls")] :=
  classify_and_allowlist_depend_only_on_invocation "Bash" [("command", "ls"), ("extra", "1")]
    [("command", "ls")] [] (by decide) (by decide)

/-- C10: a Bash command containing a compound operator — a semicolon, a
doubled ampersand, a doubled pipe, or a standalone ampersand that is
part of neither a doubled ampersand nor an ampersand-redirect — is never
allow-listed, whatever the settings documents contain. -/
theorem compound_command_never_allowlisted (s : List SettingsDoc) (i : ToolInput)
    (h : strContains (getStr i "command") ";" = true ∨
         strContains (getStr i "command") "&&" = true ∨
         strContains (getStr i "command") "||" = true ∨
         standaloneAmp (getStr i "command").toList = true) :
    is_allowed_by_settings s "Bash" i = false := by
  have hcomp : _has_compound_operators (getStr i "command") = true := by
    unfold _has_compound_operators
    rcases h with h | h | h | h
    · simp [h]
    · simp [h]
    · simp [h]
    · have h2 : standaloneAmp (getStr i "command").data = true := h
      simp [h2]
  unfold is_allowed_by_settings
  rw [if_neg (by simp)]
  simp only [hcomp, if_true]

/-- C10 witness: a semicolon chain is refused even against a bare
allow-everything Bash entry. -/
theorem compound_command_never_allowlisted_witness :
    is_allowed_by_settings [SettingsDoc.mk ["Bash"]] "Bash"
      [("command", "echo a; echo b")] = false :=
  compound_command_never_allowlisted [SettingsDoc.mk ["Bash"]]
    [("command", "echo a; echo b")] (Or.inl (by decide))
